import Mathlib

/-!
Shallow embedding of the restub HTTP mocking server (src/restub/route.py and
src/restub/stub.py), together with proofs about its route model, content
negotiation, route resolution and service lifecycle.

Python values that can flow through the constructors under scrutiny are
modelled by the inductive `PyVal`; exceptions by `PyErr`.  External
collaborators (the filesystem, `json.loads`/`json.dumps`, the XML parser)
are abstracted into an environment `Env`; everything written in the
repository itself is translated literally.
-/

/-- The fragment of Python runtime values flowing through restub's
constructors: `None`, booleans, ints, strings, lists, tuples and
string-keyed dicts (dicts are modelled as insertion-ordered association
lists, which is how CPython dicts behave). -/
inductive PyVal where
  | none
  | bool (b : Bool)
  | int (n : Int)
  | str (s : String)
  | list (xs : List PyVal)
  | tuple (xs : List PyVal)
  | dict (entries : List (String × PyVal))

/-- Python exceptions raised by restub: `TypeError` and `ValueError`,
with their message. -/
inductive PyErr where
  | typeError (msg : String)
  | valueError (msg : String)
deriving DecidableEq, Repr

/-- ASCII whitespace stripped by Python's `str.strip()`; non-ASCII
whitespace is outside the modelled domain. -/
def isPySpace (c : Char) : Bool :=
  c.toNat = 32 || c.toNat = 9 || c.toNat = 10 || c.toNat = 13 ||
    c.toNat = 11 || c.toNat = 12

/-- Python `str.strip()` (both ends). -/
def pyStrip (s : String) : String :=
  String.mk (((s.toList.dropWhile isPySpace).reverse.dropWhile
    isPySpace).reverse)

/-- ASCII uppercasing of one character; Python's `str.upper()` restricted
to ASCII (no modelled method name contains non-ASCII letters). -/
def asciiUpper (c : Char) : Char :=
  if 97 ≤ c.toNat ∧ c.toNat ≤ 122 then Char.ofNat (c.toNat - 32) else c

/-- Python `str.upper()` on ASCII strings. -/
def pyUpper (s : String) : String := String.mk (s.toList.map asciiUpper)

/-- Python `str.startswith(pre)`. -/
def pyStartsWith (s pre : String) : Bool := pre.toList.isPrefixOf s.toList

/-- Decimal digit run to a number; fails on the empty run or any
non-digit. -/
def parseDigitsAux : List Char → Nat → Option Nat
  | [], acc => some acc
  | c :: rest, acc =>
    if 48 ≤ c.toNat ∧ c.toNat ≤ 57 then
      parseDigitsAux rest (acc * 10 + (c.toNat - 48))
    else Option.none

def parseDigits (cs : List Char) : Option Nat :=
  if cs.isEmpty then Option.none else parseDigitsAux cs 0

/-- Python `int(s)` on a string: strip whitespace, optional sign, decimal
digits; underscore separators are outside the modelled domain. -/
def pyIntOfStr (s : String) : Option Int :=
  match (pyStrip s).toList with
  | '+' :: rest => (parseDigits rest).map Int.ofNat
  | '-' :: rest => (parseDigits rest).map (fun n => -(n : Int))
  | cs => (parseDigits cs).map Int.ofNat

/-- Python truthiness (`if x:`) for the modelled values. -/
def pyTruthy : PyVal → Bool
  | .none => false
  | .bool b => b
  | .int n => n != 0
  | .str s => s != ""
  | .list xs => !xs.isEmpty
  | .tuple xs => !xs.isEmpty
  | .dict es => !es.isEmpty

/-- Python `int(x)` on the modelled values (`None` on failure): ints pass
through, bools become 0/1, strings are parsed as decimal integers.
Numeric-string forms with underscores are outside the modelled domain. -/
def pyInt : PyVal → Option Int
  | .int n => some n
  | .bool b => some (if b then 1 else 0)
  | .str s => pyIntOfStr s
  | _ => Option.none

/-- Python `float(x)` on the modelled values (`None` on failure), as an
exact rational.  Numeric strings are outside the modelled domain. -/
def pyFloat : PyVal → Option ℚ
  | .int n => some (n : ℚ)
  | .bool b => some (if b then 1 else 0)
  | _ => Option.none

/-- UTF-8 encoding of one code point, as a list of byte values. -/
def utf8Bytes (c : Nat) : List Nat :=
  if c < 0x80 then [c]
  else if c < 0x800 then [0xC0 + c / 64, 0x80 + c % 64]
  else if c < 0x10000 then
    [0xE0 + c / 4096, 0x80 + c / 64 % 64, 0x80 + c % 64]
  else
    [0xF0 + c / 262144, 0x80 + c / 4096 % 64, 0x80 + c / 64 % 64,
      0x80 + c % 64]

/-- `s.encode()` in Python: the UTF-8 bytes of a string. -/
def utf8Encode (s : String) : List Nat :=
  (s.toList.map (fun ch => utf8Bytes ch.toNat)).flatten

/-- Lookup in an association list with string keys — dict subscripting /
`dict.get`. -/
def alGet {α : Type} (k : String) : List (String × α) → Option α
  | [] => Option.none
  | (a, b) :: rest => if a = k then some b else alGet k rest

/-- The external collaborators of the content negotiator and the service:
the filesystem and the Python standard-library parsers, abstracted as an
environment.  `fs p` is `some bytes` exactly when `open(p, 'rb')` succeeds
and reads `bytes`; `pathExists` is `Path(p).exists()`; `isJson`/`isXml`
are the success of `json.loads`/`xml.dom.minidom.parseString`; `dumps` is
`json.dumps` on a dict. -/
structure Env where
  fs : String → Option (List Nat)
  pathExists : String → Bool
  isJson : String → Bool
  isXml : String → Bool
  dumps : List (String × PyVal) → String

/-- The `CTYPES` extension → MIME-type table of `route.py`. -/
def CTYPES : List (String × String) := [
  (".htm", "text/html"),
  (".html", "text/html"),
  (".css", "text/css"),
  (".js", "application/javascript"),
  (".json", "application/json"),
  (".xml", "application/xml"),
  (".csv", "text/csv"),
  (".txt", "text/plain"),
  (".csh", "application/x-csh"),
  (".sh", "application/x-sh"),
  (".jpg", "image/jpeg"),
  (".jpeg", "image/jpeg"),
  (".png", "image/png"),
  (".gif", "image/gif"),
  (".bmp", "image/bmp"),
  (".ico", "image/x-icon"),
  (".svg", "image/svg+xml"),
  (".webp", "image/webp"),
  (".tif", "image/tiff"),
  (".tiff", "image/tiff"),
  (".mp3", "audio/mpeg"),
  (".aac", "audio/aac"),
  (".mid", "audio/midi"),
  (".midi", "audio/midi"),
  (".oga", "audio/ogg"),
  (".wav", "audio/x-wav"),
  (".weba", "audio/webm"),
  (".3g2", "audio/3gpp2"),
  (".mpeg", "video/mpeg"),
  (".ogv", "video/ogg"),
  (".avi", "video/x-msvideo"),
  (".3gp", "video/3gpp"),
  (".webm", "video/webm"),
  (".7z", "application/x-7z-compressed"),
  (".bz", "application/x-bzip"),
  (".bz2", "application/x-bzip2"),
  (".jar", "application/java-archive"),
  (".tar", "application/x-tar"),
  (".zip", "application/zip"),
  (".rar", "application/x-rar-compressed"),
  (".ttf", "font/ttf"),
  (".otf", "font/otf"),
  (".woff", "font/woff"),
  (".woff2", "font/woff2"),
  (".eot", "application/vnd.ms-fontobject"),
  (".bin", "application/octet-stream"),
  (".swf", "application/x-shockwave-flash"),
  (".pdf", "application/pdf")]

/-- Split a character list at `'/'` separators. -/
def splitSlash : List Char → List (List Char)
  | [] => [[]]
  | '/' :: rest => [] :: splitSlash rest
  | c :: rest =>
    match splitSlash rest with
    | g :: gs => (c :: g) :: gs
    | [] => [[c]]

/-- The final component of a POSIX path, as `pathlib.PurePath.name`
(empty and `.` components are dropped during parsing). -/
def pathName (s : String) : List Char :=
  (((splitSlash s.toList).filter
    (fun c => !c.isEmpty && c != ['.'])).getLast?).getD []

/-- Index of the last `'.'` in a character list (`str.rfind('.')`). -/
def rfindDot : List Char → Option Nat
  | [] => Option.none
  | c :: rest =>
    match rfindDot rest with
    | some i => some (i + 1)
    | Option.none => if c = '.' then some 0 else Option.none

/-- `pathlib.PurePath.suffix`: the trailing `.ext` of the path's final
component, empty when the last dot is leading or trailing. -/
def pathSuffix (s : String) : String :=
  let name := pathName s
  match rfindDot name with
  | some i =>
    if 0 < i ∧ i < name.length - 1 then String.mk (name.drop i)
    else ""
  | Option.none => ""

namespace Method

/-- `Method.ALLOWED` from `route.py`. -/
def ALLOWED : List String := ["GET", "POST", "PUT", "DELETE"]

def GET : String := "GET"
def POST : String := "POST"
def PUT : String := "PUT"
def DELETE : String := "DELETE"

end Method

/-- `is_json` from `route.py`, with `json.loads` abstracted in the
environment. -/
def is_json (env : Env) (s : String) : Bool := env.isJson s

/-- `is_xml` from `route.py`, with `parseString` abstracted in the
environment. -/
def is_xml (env : Env) (s : String) : Bool := env.isXml s

/-- `is_html` from `route.py`. -/
def is_html (s : String) : Bool :=
  pyStartsWith s "<!DOCTYPE html" || pyStartsWith s "<html"

/-- `parse_response` from `route.py`: dict payloads are JSON-dumped;
string payloads are first tried as a readable file (content-type from
`CTYPES` by suffix, defaulting to `text/plain`), otherwise sniffed as
JSON, then HTML, then XML, else plain text; anything else is a
`TypeError`. -/
def parse_response (env : Env) (obj : PyVal) :
    Except PyErr (List Nat × String) :=
  match obj with
  | .dict d => .ok (utf8Encode (env.dumps d), "application/json")
  | .str s =>
    match env.fs s with
    | some fileBytes =>
      .ok (fileBytes, (alGet (pathSuffix s) CTYPES).getD "text/plain")
    | Option.none =>
      let ctype :=
        if is_json env s then "application/json"
        else if is_html s then "text/html"
        else if is_xml env s then "application/xml"
        else "text/plain"
      .ok (utf8Encode s, ctype)
  | _ => .error (.typeError "Response data should be str or dict")

/-- A validated `Route` (`route.py`): uppercase method, regex path,
optional body bytes, insertion-ordered headers, integer status. -/
structure Route where
  method : String
  path : String
  data : Option (List Nat)
  headers : List (String × PyVal)
  status : Int

/-- Replace an entry's value when its key is `k`. -/
def setEntry (k : String) (v : PyVal) (p : String × PyVal) :
    String × PyVal :=
  if p.1 = k then (k, v) else p

/-- `dict.__setitem__` on an insertion-ordered association list: replace
the value in place when the key is present, else append. -/
def dictSet (d : List (String × PyVal)) (k : String) (v : PyVal) :
    List (String × PyVal) :=
  if d.any (fun p => decide (p.1 = k)) then d.map (setEntry k v)
  else d ++ [(k, v)]

/-- `dict.update`: fold `dictSet` over the new entries in order. -/
def dictUpdate (d new : List (String × PyVal)) : List (String × PyVal) :=
  new.foldl (fun acc p => dictSet acc p.1 p.2) d

/-- The method-validation stage of `Route.__init__`: `method.upper()` must
be in `Method.ALLOWED`, values without an `upper` attribute give an
`AttributeError` re-raised as a `TypeError`. -/
def parseMethod : PyVal → Except PyErr String
  | .str s =>
    if pyUpper s ∈ Method.ALLOWED then .ok (pyUpper s)
    else .error (.valueError ("Method \x22" ++ s ++ "\x22 is not allowed"))
  | _ => .error (.typeError "Method name should be str")

/-- The path-validation stage of `Route.__init__`: `path.strip()` must be
truthy, values without a `strip` attribute give an `AttributeError`
re-raised as a `TypeError`. -/
def parsePath : PyVal → Except PyErr String
  | .str s =>
    if pyStrip s != "" then .ok s
    else .error (.valueError "Path cannot be empty")
  | _ => .error (.typeError "Path should be str")

/-- The `if data:` stage of `Route.__init__`: a truthy payload is
negotiated into body bytes plus the auto-inserted `Content-type` and
`Content-length` headers; a falsy payload leaves no body and no headers. -/
def negotiate (env : Env) (d : PyVal) :
    Except PyErr (Option (List Nat) × List (String × PyVal)) :=
  if pyTruthy d then
    match parse_response env d with
    | .ok (b, ct) =>
      .ok (some b,
        [("Content-type", PyVal.str ct),
         ("Content-length", PyVal.int (b.length : Int))])
    | .error e => .error e
  else .ok (Option.none, [])

/-- The `if headers:` stage of `Route.__init__`: a truthy dict is merged
over the auto headers with `dict.update`; a truthy non-dict raises
`TypeError`; a falsy value is skipped.  Iterables of pairs (which
`dict.update` would also accept) are outside the modelled domain. -/
def mergeHeaders (auto : List (String × PyVal)) (headers : PyVal) :
    Except PyErr (List (String × PyVal)) :=
  if pyTruthy headers then
    match headers with
    | .dict hs => .ok (dictUpdate auto hs)
    | _ => .error (.typeError "Headers should be dict")
  else .ok auto

/-- `Route.__init__`: validate method, then path, then negotiate the
payload, then merge caller headers, then convert the status. -/
def rInit (env : Env) (method path payload headers status : PyVal) :
    Except PyErr Route :=
  match parseMethod method with
  | .error e => .error e
  | .ok m =>
    match parsePath path with
    | .error e => .error e
    | .ok p =>
      match negotiate env payload with
      | .error e => .error e
      | .ok (body, auto) =>
        match mergeHeaders auto headers with
        | .error e => .error e
        | .ok hdrs =>
          match pyInt status with
          | some n => .ok ⟨m, p, body, hdrs, n⟩
          | Option.none => .error (.typeError "Status code should be int")

/-- `Route.cast` re-raises any `ValueError` of the wrapped construction as
`ValueError('Route should contain method and path')`. -/
def castWrap : Except PyErr Route → Except PyErr Route
  | .error (.valueError _) =>
    .error (.valueError "Route should contain method and path")
  | r => r

/-- `Route.cast` from `route.py`: a truthy list/tuple is unpacked as
`(method, path, *opts)` and forwarded to `Route.__init__`; a falsy value
or a non-sequence raises `TypeError`; an unpacking failure (single
element), like any `ValueError` of the construction, raises
`ValueError('Route should contain method and path')`. -/
def Route.cast (env : Env) (v : PyVal) : Except PyErr Route :=
  if pyTruthy v then
    match v with
    | .list es | .tuple es =>
      match es with
      | m :: p :: opts =>
        castWrap (rInit env m p (opts.getD 0 .none) (opts.getD 1 .none)
          (opts.getD 2 (.int 200)))
      | _ => .error (.valueError "Route should contain method and path")
    | _ => .error (.typeError "Route should be list or tuple")
  else .error (.typeError "Route should be list or tuple")

/-- Tokens of the regex fragment used by restub's route patterns:
literal characters, `.`, the starred forms `c*` and `.*`, and the `$`
anchor.  Other `re` metacharacters are outside the modelled domain and
read as literals. -/
inductive RTok where
  | lit (c : Char)
  | dotAny
  | litStar (c : Char)
  | dotStar
  | eos

/-- Tokenize a pattern: a character followed by `*` becomes its starred
form, `.` matches any character, `$` anchors at the end. -/
def tokenize : List Char → List RTok
  | [] => []
  | '$' :: rest => RTok.eos :: tokenize rest
  | '.' :: '*' :: rest => RTok.dotStar :: tokenize rest
  | '.' :: rest => RTok.dotAny :: tokenize rest
  | c :: '*' :: rest => RTok.litStar c :: tokenize rest
  | c :: rest => RTok.lit c :: tokenize rest

/-- Prefix matching of a token list against the input, as `re.match`:
the pattern need not consume the whole input (an empty pattern over
remaining input succeeds), and `$` demands the end of the input.  `$`
before a trailing newline is outside the modelled domain.  Every step
either drops a token or consumes an input character, so the explicit
fuel never runs out when it starts at `ts.length + s.length + 1`. -/
def matchFuel : Nat → List RTok → List Char → Bool
  | 0, _, _ => false
  | _ + 1, [], _ => true
  | f + 1, RTok.eos :: ts, [] => matchFuel f ts []
  | _ + 1, RTok.eos :: _, _ :: _ => false
  | _ + 1, RTok.lit _ :: _, [] => false
  | f + 1, RTok.lit c :: ts, x :: xs => c == x && matchFuel f ts xs
  | _ + 1, RTok.dotAny :: _, [] => false
  | f + 1, RTok.dotAny :: ts, _ :: xs => matchFuel f ts xs
  | f + 1, RTok.litStar _ :: ts, [] => matchFuel f ts []
  | f + 1, RTok.litStar c :: ts, x :: xs =>
    matchFuel f ts (x :: xs) ||
      (c == x && matchFuel f (RTok.litStar c :: ts) xs)
  | f + 1, RTok.dotStar :: ts, [] => matchFuel f ts []
  | f + 1, RTok.dotStar :: ts, x :: xs =>
    matchFuel f ts (x :: xs) || matchFuel f (RTok.dotStar :: ts) xs

def matchToks (ts : List RTok) (s : List Char) : Bool :=
  matchFuel (ts.length + s.length + 1) ts s

/-- `re.match(pat, s)` as a boolean, for the modelled pattern fragment: a
leading `^` is redundant under match-from-start semantics and dropped. -/
def reMatch (pat s : String) : Bool :=
  let cs := pat.toList
  matchToks (tokenize (if cs.head? = some '^' then cs.tail else cs)) s.toList

/-- One registered service with its configuration (`stub.py`): the
ordered route list and the validated fields of `Service.__init__`.
`key`/`crt` hold the given path when `Path(...).exists()`, else the
Python `False` sentinel, modelled as `none`. -/
structure Service where
  routes : List Route
  port : Int
  trace : Bool
  delay : ℚ
  secure : Bool
  key : Option String
  crt : Option String

/-- The loop body of `Service.resolve`: first route whose method equals
the request method and whose pattern matches the request path. -/
def resolveList : List Route → String → String → Option Route
  | [], _, _ => Option.none
  | r :: rs, m, p =>
    if r.method == m && reMatch r.path p then some r else resolveList rs m p

/-- `Service.resolve` from `stub.py`. -/
def Service.resolve (svc : Service) (method path : String) : Option Route :=
  resolveList svc.routes method path

/-- Outcome of one `HTTPServer` bind attempt, abstracting the socket:
success, `OSError` with `errno == EADDRINUSE`, or any other `OSError`. -/
inductive BindOutcome where
  | ok
  | addrInUse
  | otherErr
deriving DecidableEq, Repr

/-- Result of `Service._create`: the bind succeeded at some attempt, a
non-address-in-use error propagated at some attempt, or all attempts were
exhausted and the fatal `OSError` below was raised. -/
inductive CreateResult where
  | success (attempt : Nat)
  | propagated (attempt : Nat)
  | exhausted (msg : String)
deriving DecidableEq, Repr

/-- Observable trace of `Service._create`: its result, how many bind
attempts were performed, and the `sleep` backoffs performed (in seconds,
in order). -/
structure CreateTrace where
  result : CreateResult
  binds : Nat
  sleeps : List ℚ
deriving DecidableEq, Repr

/-- The `while attempts >= 0` loop of `Service._create`, reading the
outcome of the `idx`-th bind attempt from `out`: on success return, on
`EADDRINUSE` sleep 0.5 s and retry with one fewer attempt, on any other
`OSError` re-raise; leaving the loop raises the fatal `OSError`.  The
body runs once for each counter value from `attempts` down to 0, so it
is driven by the number `iters` of iterations left. -/
def createGo (out : Nat → BindOutcome) (idx : Nat) : Nat → CreateTrace
  | 0 => ⟨.exhausted "Port is already busy or operation not permitted", 0, []⟩
  | iters + 1 =>
    match out idx with
    | .ok => ⟨.success idx, 1, []⟩
    | .otherErr => ⟨.propagated idx, 1, []⟩
    | .addrInUse =>
      let t := createGo out (idx + 1) iters
      ⟨t.result, t.binds + 1, (1 : ℚ) / 2 :: t.sleeps⟩

/-- `Service._create(attempts)`: the loop above starting with
`attempts + 1` iterations left (the counter values `attempts`, …, `0`). -/
def createFrom (out : Nat → BindOutcome) (attempts : Int) : CreateTrace :=
  createGo out 0 (attempts + 1).toNat

/-- Outcome of `Service.start`. -/
inductive StartOutcome where
  | running (attempt : Nat)
  | bindError (attempt : Nat)
  | exhausted (msg : String)
  | noRoutes (msg : String)
deriving DecidableEq, Repr

/-- Observable trace of `Service.start`: its outcome, bind attempts made
and backoffs slept. -/
structure StartTrace where
  outcome : StartOutcome
  binds : Nat
  sleeps : List ℚ
deriving DecidableEq, Repr

/-- `Service.start` from `stub.py`: with a non-empty route list it calls
`self._create(attempts=3)`; with an empty one it raises
`ValueError('Routes not defined')` before touching any socket. -/
def Service.start (svc : Service) (out : Nat → BindOutcome) : StartTrace :=
  if !svc.routes.isEmpty then
    match createFrom out 3 with
    | ⟨.success i, b, sl⟩ => ⟨.running i, b, sl⟩
    | ⟨.propagated i, b, sl⟩ => ⟨.bindError i, b, sl⟩
    | ⟨.exhausted m, b, sl⟩ => ⟨.exhausted m, b, sl⟩
  else ⟨.noRoutes "Routes not defined", 0, []⟩

/-- `Service.get`: append `Route(Method.GET, path, data, headers, status)`. -/
def Service.get (env : Env) (svc : Service)
    (path payload headers status : PyVal) : Except PyErr Service :=
  match rInit env (.str Method.GET) path payload headers status with
  | .ok r => .ok { svc with routes := svc.routes ++ [r] }
  | .error e => .error e

/-- `Service.post`: append `Route(Method.POST, path, data, headers,
status)`. -/
def Service.post (env : Env) (svc : Service)
    (path payload headers status : PyVal) : Except PyErr Service :=
  match rInit env (.str Method.POST) path payload headers status with
  | .ok r => .ok { svc with routes := svc.routes ++ [r] }
  | .error e => .error e

/-- `Service.put`: append `Route(Method.PUT, path, None, headers, status)`
— the builder takes no payload argument and always passes `None`. -/
def Service.put (env : Env) (svc : Service) (path headers status : PyVal) :
    Except PyErr Service :=
  match rInit env (.str Method.PUT) path .none headers status with
  | .ok r => .ok { svc with routes := svc.routes ++ [r] }
  | .error e => .error e

/-- `Service.delete`: append `Route(Method.DELETE, path, data, headers,
status)`. -/
def Service.delete (env : Env) (svc : Service)
    (path payload headers status : PyVal) : Except PyErr Service :=
  match rInit env (.str Method.DELETE) path payload headers status with
  | .ok r => .ok { svc with routes := svc.routes ++ [r] }
  | .error e => .error e

def isSeq : PyVal → Bool
  | .list _ => true
  | .tuple _ => true
  | _ => false

/-- The `routes` handling of `Service.__init__`: a falsy argument leaves
the list empty; a non-sequence raises `TypeError`; when every element is
itself a list/tuple each is cast, otherwise the whole argument is cast as
a single route. -/
def castRoutes (env : Env) (routes : PyVal) : Except PyErr (List Route) :=
  if pyTruthy routes then
    match routes with
    | .list rs => if rs.all isSeq then rs.mapM (Route.cast env)
        else (Route.cast env routes).map (fun r => [r])
    | .tuple rs => if rs.all isSeq then rs.mapM (Route.cast env)
        else (Route.cast env routes).map (fun r => [r])
    | _ => .error (.typeError "Routes should be list or tuple")
  else .ok []

/-- `Service.__set_secure`: with a truthy `secure`, the resolved `crt`
then the resolved `key` must not be the `False` sentinel; the stored flag
is the truthiness of the given value. -/
def setSecure (secure : PyVal) (keyV crtV : Option String) :
    Except PyErr Bool :=
  if pyTruthy secure then
    if crtV.isNone then .error (.valueError "crt not exists but ssl is enabled")
    else if keyV.isNone then
      .error (.valueError "key not exists but ssl is enabled")
    else .ok (pyTruthy secure)
  else .ok (pyTruthy secure)

/-- `Service.__init__`: cast the routes, validate port, trace and delay,
resolve the `crt` and `key` paths against the filesystem (an inexistent
path is stored as the `False` sentinel), then validate `secure`. -/
def Service.init (env : Env) (routes port trace delay secure : PyVal)
    (key crt : String) : Except PyErr Service :=
  match castRoutes env routes with
  | .error e => .error e
  | .ok rts =>
    match pyInt port with
    | Option.none => .error (.typeError "port should be int")
    | some prt =>
      let trc := pyTruthy trace
      match pyFloat delay with
      | Option.none => .error (.typeError "delay should be int or float")
      | some dly =>
        let crtV := if env.pathExists crt then some crt else Option.none
        let keyV := if env.pathExists key then some key else Option.none
        match setSecure secure keyV crtV with
        | .error e => .error e
        | .ok sec => .ok ⟨rts, prt, trc, dly, sec, keyV, crtV⟩

/-- Does a construction result carry a `ValueError`? -/
def isValueErr : Except PyErr Route → Bool
  | .error (.valueError _) => true
  | _ => false

/-- A bare environment: empty filesystem, no existing paths, nothing
parses as JSON or XML. -/
def envTest : Env :=
  ⟨fun _ => Option.none, fun _ => false, fun _ => false, fun _ => false,
    fun _ => "\x7b\x7d"⟩

/-- An environment with one readable file `/tmp/logo.png` and recognisers
accepting exactly one JSON and one XML text. -/
def envFile : Env :=
  ⟨fun p => if p = "/tmp/logo.png" then some [137, 80] else Option.none,
    fun p => p == "/tmp/logo.png",
    fun s => s == "\x7b\x7d",
    fun s => s == "<a/>",
    fun _ => "\x7b\x7d"⟩

/-- An environment where exactly the TLS key and certificate paths
exist. -/
def envSec : Env :=
  ⟨fun _ => Option.none, fun p => p == "k.pem" || p == "c.pem",
    fun _ => false, fun _ => false, fun _ => "\x7b\x7d"⟩

/-! ### Lemmas about the insertion-ordered dict model -/

theorem setEntry_self (k : String) (v a2 : PyVal) :
    setEntry k v (k, a2) = (k, v) := by
  simp [setEntry]

theorem setEntry_other (k : String) (v : PyVal) (a1 : String) (a2 : PyVal)
    (h : a1 ≠ k) : setEntry k v (a1, a2) = (a1, a2) := by
  simp [setEntry, h]

theorem alGet_cons {α : Type} (a : String) (b : α) (l : List (String × α))
    (k : String) :
    alGet k ((a, b) :: l) = if a = k then some b else alGet k l := rfl

theorem dictSet_pos (d : List (String × PyVal)) (k : String) (v : PyVal)
    (h : d.any (fun p => decide (p.1 = k)) = true) :
    dictSet d k v = d.map (setEntry k v) := by
  simp [dictSet, h]

theorem dictSet_neg (d : List (String × PyVal)) (k : String) (v : PyVal)
    (h : d.any (fun p => decide (p.1 = k)) = false) :
    dictSet d k v = d ++ [(k, v)] := by
  simp [dictSet, h]

theorem alGet_map_setKey (l : List (String × PyVal)) (k k' : String)
    (v : PyVal) (h : k' ≠ k) :
    alGet k' (l.map (setEntry k v)) = alGet k' l := by
  induction l with
  | nil => rfl
  | cons a rest ih =>
    obtain ⟨a1, a2⟩ := a
    rw [List.map_cons]
    by_cases hak : a1 = k
    · subst hak
      rw [setEntry_self, alGet_cons, alGet_cons,
        if_neg (fun hh => h hh.symm), if_neg (fun hh => h hh.symm), ih]
    · rw [setEntry_other _ _ _ _ hak, alGet_cons, alGet_cons, ih]

theorem alGet_dictSet (d : List (String × PyVal)) (k : String) (v : PyVal)
    (k' : String) :
    alGet k' (dictSet d k v) = if k = k' then some v else alGet k' d := by
  induction d with
  | nil => rfl
  | cons a rest ih =>
    obtain ⟨a1, a2⟩ := a
    by_cases hany : ((a1, a2) :: rest).any (fun p => decide (p.1 = k)) = true
    · rw [dictSet_pos _ _ _ hany, List.map_cons]
      by_cases hak : a1 = k
      · subst hak
        rw [setEntry_self, alGet_cons, alGet_cons]
        by_cases hk' : a1 = k'
        · rw [if_pos hk', if_pos hk']
        · simp only [if_neg hk',
            alGet_map_setKey rest a1 k' v (fun hh => hk' hh.symm)]
      · rw [setEntry_other _ _ _ _ hak, alGet_cons, alGet_cons]
        have hrest : rest.any (fun p => decide (p.1 = k)) = true := by
          simpa [List.any_cons, hak] using hany
        have ih' : alGet k' (rest.map (setEntry k v)) =
            if k = k' then some v else alGet k' rest := by
          rw [← dictSet_pos rest k v hrest]; exact ih
        rw [ih']
        by_cases hk' : a1 = k'
        · have hne : ¬(k = k') := fun hh => hak (hh.trans hk'.symm).symm
          rw [if_pos hk', if_neg hne, if_pos hk']
        · rw [if_neg hk']
          by_cases hkk : k = k'
          · rw [if_pos hkk, if_pos hkk]
          · rw [if_neg hkk, if_neg hkk, if_neg hk']
    · have hfalse : ((a1, a2) :: rest).any (fun p => decide (p.1 = k)) =
          false := by
        revert hany
        cases ((a1, a2) :: rest).any (fun p => decide (p.1 = k)) <;> simp
      have hsplit : decide (a1 = k) = false ∧
          rest.any (fun p => decide (p.1 = k)) = false := by
        simpa [List.any_cons] using hfalse
      obtain ⟨hd, hrest⟩ := hsplit
      have hak : a1 ≠ k := by simpa using hd
      rw [dictSet_neg _ _ _ hfalse, List.cons_append, alGet_cons, alGet_cons]
      have ih' : alGet k' (rest ++ [(k, v)]) =
          if k = k' then some v else alGet k' rest := by
        rw [← dictSet_neg rest k v hrest]; exact ih
      rw [ih']
      by_cases hk' : a1 = k'
      · have hne : ¬(k = k') := fun hh => hak (hh.trans hk'.symm).symm
        rw [if_pos hk', if_neg hne, if_pos hk']
      · rw [if_neg hk']
        by_cases hkk : k = k'
        · rw [if_pos hkk, if_pos hkk]
        · rw [if_neg hkk, if_neg hkk, if_neg hk']

theorem alGet_dictUpdate_notin (d new : List (String × PyVal)) (k : String)
    (h : ∀ p ∈ new, p.1 ≠ k) :
    alGet k (dictUpdate d new) = alGet k d := by
  induction new generalizing d with
  | nil => rfl
  | cons a rest ih =>
    obtain ⟨a1, a2⟩ := a
    have hstep : dictUpdate d ((a1, a2) :: rest) =
        dictUpdate (dictSet d a1 a2) rest := rfl
    rw [hstep,
      ih (dictSet d a1 a2) (fun p hp => h p (List.mem_cons_of_mem _ hp)),
      alGet_dictSet, if_neg (h (a1, a2) (List.mem_cons_self _ _))]

theorem alGet_dictUpdate_mem (d new : List (String × PyVal)) (k : String)
    (v : PyVal) (hnd : (new.map Prod.fst).Nodup)
    (h : alGet k new = some v) :
    alGet k (dictUpdate d new) = some v := by
  induction new generalizing d with
  | nil => simp [alGet] at h
  | cons a rest ih =>
    obtain ⟨a1, a2⟩ := a
    have hstep : dictUpdate d ((a1, a2) :: rest) =
        dictUpdate (dictSet d a1 a2) rest := rfl
    rw [hstep]
    have hnd2 : (a1 :: rest.map Prod.fst).Nodup := by simpa using hnd
    obtain ⟨hnotmem, htail⟩ := List.nodup_cons.mp hnd2
    by_cases hk : a1 = k
    · subst hk
      have hv : a2 = v := by simpa [alGet] using h
      subst hv
      have hnotin : ∀ p ∈ rest, p.1 ≠ a1 := by
        intro p hp hpk
        exact hnotmem (hpk ▸ List.mem_map_of_mem _ hp)
      rw [alGet_dictUpdate_notin _ _ _ hnotin, alGet_dictSet, if_pos rfl]
    · have h' : alGet k rest = some v := by
        simpa [alGet, hk] using h
      exact ih (dictSet d a1 a2) htail h'


/-! ### Inversion of the Route constructor -/

theorem rInit_ok_iff (env : Env) (method path payload headers status : PyVal)
    (r : Route) :
    rInit env method path payload headers status = .ok r ↔
      ∃ m p ba hdrs n,
        parseMethod method = .ok m ∧ parsePath path = .ok p ∧
        negotiate env payload = .ok ba ∧
        mergeHeaders ba.2 headers = .ok hdrs ∧
        pyInt status = some n ∧
        r = ⟨m, p, ba.1, hdrs, n⟩ := by
  constructor
  · intro h
    cases hm : parseMethod method with
    | error e => simp [rInit, hm] at h
    | ok m =>
      cases hp : parsePath path with
      | error e => simp [rInit, hm, hp] at h
      | ok p =>
        cases hn : negotiate env payload with
        | error e => simp [rInit, hm, hp, hn] at h
        | ok ba =>
          obtain ⟨body, auto⟩ := ba
          cases hh : mergeHeaders auto headers with
          | error e => simp [rInit, hm, hp, hn, hh] at h
          | ok hdrs =>
            cases hs : pyInt status with
            | none => simp [rInit, hm, hp, hn, hh, hs] at h
            | some n =>
              simp only [rInit, hm, hp, hn, hh, hs, Except.ok.injEq] at h
              refine ⟨m, p, (body, auto), hdrs, n, rfl, rfl, rfl, hh, rfl,
                ?_⟩
              rw [← h]
  · rintro ⟨m, p, ba, hdrs, n, hm, hp, hn, hh, hs, rfl⟩
    obtain ⟨body, auto⟩ := ba
    simp [rInit, hm, hp, hn, hh, hs]

/-! ### The resolver returns the first match -/

theorem resolveList_eq_some (routes : List Route) (m p : String) (r : Route)
    (h : resolveList routes m p = some r) :
    ∃ pre post, routes = pre ++ r :: post ∧
      (r.method == m && reMatch r.path p) = true ∧
      ∀ r' ∈ pre, (r'.method == m && reMatch r'.path p) = false := by
  induction routes with
  | nil => simp [resolveList] at h
  | cons a rest ih =>
    by_cases hc : (a.method == m && reMatch a.path p) = true
    · rw [resolveList, if_pos hc] at h
      cases h
      exact ⟨[], rest, rfl, hc, by intro r' hr'; cases hr'⟩
    · rw [resolveList, if_neg hc] at h
      obtain ⟨pre, post, heq, hok, hall⟩ := ih h
      refine ⟨a :: pre, post, by rw [heq, List.cons_append], hok, ?_⟩
      intro r' hr'
      rcases List.mem_cons.mp hr' with hr1 | hr2
      · subst hr1
        cases hb : (r'.method == m && reMatch r'.path p) with
        | false => rfl
        | true => exact absurd hb hc
      · exact hall r' hr2

theorem resolveList_eq_none (routes : List Route) (m p : String) :
    resolveList routes m p = Option.none ↔
      ∀ r ∈ routes, (r.method == m && reMatch r.path p) = false := by
  induction routes with
  | nil => simp [resolveList]
  | cons a rest ih =>
    by_cases hc : (a.method == m && reMatch a.path p) = true
    · rw [resolveList, if_pos hc]
      constructor
      · intro h
        exact absurd h (by simp)
      · intro hall
        exact absurd (hall a (List.mem_cons_self _ _)) (by simp [hc])
    · rw [resolveList, if_neg hc, ih]
      constructor
      · intro hall r hr
        rcases List.mem_cons.mp hr with hr1 | hr2
        · subst hr1
          cases hb : (r.method == m && reMatch r.path p) with
          | false => rfl
          | true => exact absurd hb hc
        · exact hall r hr2
      · exact fun hall r hr => hall r (List.mem_cons_of_mem _ hr)

theorem resolveList_first (pre : List Route) (r : Route) (post : List Route)
    (m p : String)
    (hpre : ∀ r' ∈ pre, (r'.method == m && reMatch r'.path p) = false)
    (hr : (r.method == m && reMatch r.path p) = true) :
    resolveList (pre ++ r :: post) m p = some r := by
  induction pre with
  | nil => simp [resolveList, hr]
  | cons a rest ih =>
    rw [List.cons_append, resolveList, if_neg]
    · exact ih fun r' hr' => hpre r' (List.mem_cons_of_mem _ hr')
    · rw [hpre a (List.mem_cons_self _ _)]
      simp

/-! ### The bind-retry loop -/

theorem createGo_binds_le (out : Nat → BindOutcome) :
    ∀ (n idx : Nat), (createGo out idx n).binds ≤ n := by
  intro n
  induction n with
  | zero => intro idx; rfl
  | succ m ih =>
    intro idx
    rw [createGo]
    cases out idx with
    | ok => exact Nat.succ_le_succ (Nat.zero_le m)
    | otherErr => exact Nat.succ_le_succ (Nat.zero_le m)
    | addrInUse => exact Nat.succ_le_succ (ih (idx + 1))

theorem createGo_all_busy (out : Nat → BindOutcome) :
    ∀ (n idx : Nat), (∀ i, i < n → out (idx + i) = .addrInUse) →
      createGo out idx n =
        ⟨.exhausted "Port is already busy or operation not permitted", n,
          List.replicate n ((1 : ℚ) / 2)⟩ := by
  intro n
  induction n with
  | zero => intro idx _; rfl
  | succ m ih =>
    intro idx hbusy
    have h0 : out idx = .addrInUse := by
      simpa using hbusy 0 (Nat.succ_pos m)
    rw [createGo, h0]
    have ht := ih (idx + 1) (fun i hi => by
      have := hbusy (i + 1) (Nat.succ_lt_succ hi)
      simpa [Nat.add_assoc, Nat.add_comm 1 i] using this)
    rw [ht]
    rfl

theorem createGo_stops (out : Nat → BindOutcome) :
    ∀ (k n idx : Nat), k < n →
      (∀ i, i < k → out (idx + i) = .addrInUse) →
      ((out (idx + k) = .ok →
        createGo out idx n =
          ⟨.success (idx + k), k + 1, List.replicate k ((1 : ℚ) / 2)⟩) ∧
       (out (idx + k) = .otherErr →
        createGo out idx n =
          ⟨.propagated (idx + k), k + 1, List.replicate k ((1 : ℚ) / 2)⟩)) := by
  intro k
  induction k with
  | zero =>
    intro n idx hn _
    obtain ⟨m, rfl⟩ : ∃ m, n = m + 1 :=
      ⟨n - 1, (Nat.succ_pred_eq_of_pos hn).symm⟩
    constructor
    · intro hok
      have hok' : out idx = .ok := by simpa using hok
      rw [createGo, hok']
      rfl
    · intro herr
      have herr' : out idx = .otherErr := by simpa using herr
      rw [createGo, herr']
      rfl
  | succ j ih =>
    intro n idx hn hbusy
    obtain ⟨m, rfl⟩ : ∃ m, n = m + 1 :=
      ⟨n - 1, (Nat.succ_pred_eq_of_pos (Nat.lt_of_le_of_lt (Nat.zero_le _)
        hn)).symm⟩
    have h0 : out idx = .addrInUse := by
      simpa using hbusy 0 (Nat.succ_pos j)
    have hshift : ∀ i, i < j → out (idx + 1 + i) = .addrInUse := fun i hi => by
      have := hbusy (i + 1) (Nat.succ_lt_succ hi)
      simpa [Nat.add_assoc, Nat.add_comm 1 i] using this
    have hidx : idx + 1 + j = idx + (j + 1) := by omega
    have hj : j < m := Nat.lt_of_succ_lt_succ hn
    obtain ⟨ihok, iherr⟩ := ih m (idx + 1) hj hshift
    constructor
    · intro hok
      rw [createGo, h0, ihok (by rw [hidx]; exact hok)]
      simp [hidx, List.replicate_succ]
    · intro herr
      rw [createGo, h0, iherr (by rw [hidx]; exact herr)]
      simp [hidx, List.replicate_succ]

/-! ### Claim theorems -/

/-- C1: the content negotiator follows the exact precedence of the spec:
a mapping is dumped to JSON bytes with content-type `application/json`; a
text payload naming a readable file returns the raw file bytes with the
content-type looked up in `CTYPES` by suffix, defaulting to `text/plain`;
an unreadable text payload is sniffed in the order JSON, HTML prefix,
XML, falling back to `text/plain`, its UTF-8 encoding being the body; any
other payload is a type error. -/
theorem claim1_negotiation :
    (∀ (env : Env) (d : List (String × PyVal)),
        parse_response env (.dict d) =
          .ok (utf8Encode (env.dumps d), "application/json")) ∧
    (∀ (env : Env) (s : String) (b : List Nat),
        env.fs s = some b →
        parse_response env (.str s) =
          .ok (b, (alGet (pathSuffix s) CTYPES).getD "text/plain")) ∧
    (∀ (env : Env) (s : String),
        env.fs s = Option.none →
        parse_response env (.str s) =
          .ok (utf8Encode s,
            if env.isJson s then "application/json"
            else if pyStartsWith s "<!DOCTYPE html" ||
                pyStartsWith s "<html" then "text/html"
            else if env.isXml s then "application/xml"
            else "text/plain")) ∧
    (∀ (env : Env) (v : PyVal),
        (∀ d, v ≠ .dict d) → (∀ s, v ≠ .str s) →
        parse_response env v =
          .error (.typeError "Response data should be str or dict")) := by
  refine ⟨fun env d => rfl, fun env s b h => by simp [parse_response, h],
    fun env s h => by simp [parse_response, h, is_json, is_html, is_xml],
    fun env v hd hs => ?_⟩
  cases v with
  | dict d => exact absurd rfl (hd d)
  | str s => exact absurd rfl (hs s)
  | none => rfl
  | bool b => rfl
  | int n => rfl
  | list xs => rfl
  | tuple xs => rfl

/-- C1 witness: the negotiator evaluated on a readable file path, an
unreadable plain text, a JSON text, an HTML text and a non-text payload
in the concrete environment `envFile`. -/
theorem claim1_witness :
    parse_response envFile (.dict [("key", .str "value")]) =
      .ok (utf8Encode "\x7b\x7d", "application/json") ∧
    parse_response envFile (.str "/tmp/logo.png") =
      .ok ([137, 80], "image/png") ∧
    parse_response envFile (.str "plain text") =
      .ok (utf8Encode "plain text", "text/plain") ∧
    parse_response envFile (.str "\x7b\x7d") =
      .ok (utf8Encode "\x7b\x7d", "application/json") ∧
    parse_response envFile (.str "<html><a>1</a></html>") =
      .ok (utf8Encode "<html><a>1</a></html>", "text/html") ∧
    parse_response envFile (.str "<a/>") =
      .ok (utf8Encode "<a/>", "application/xml") ∧
    parse_response envFile (.int 1) =
      .error (.typeError "Response data should be str or dict") := by
  refine ⟨claim1_negotiation.1 envFile [("key", .str "value")],
    claim1_negotiation.2.1 envFile "/tmp/logo.png" [137, 80] rfl,
    claim1_negotiation.2.2.1 envFile "plain text" rfl,
    claim1_negotiation.2.2.1 envFile "\x7b\x7d" rfl,
    claim1_negotiation.2.2.1 envFile "<html><a>1</a></html>" rfl,
    claim1_negotiation.2.2.1 envFile "<a/>" rfl,
    claim1_negotiation.2.2.2 envFile (.int 1)
      (fun d h => PyVal.noConfusion h) (fun s h => PyVal.noConfusion h)⟩

/-- C2: `Service.resolve` scans the route list in insertion order and
returns the first route whose method equals the request method
(case-sensitive `==`) and whose pattern prefix-matches the request path;
`None` is returned exactly when no route matches; and with the routes
`(GET, /a/$)`, `(GET, /a/.*)` registered in that order, `GET /a/b`
resolves to the second route. -/
theorem claim2_resolve_first_match :
    (∀ (svc : Service) (m p : String) (r : Route),
        svc.resolve m p = some r →
        ∃ pre post, svc.routes = pre ++ r :: post ∧
          (r.method == m && reMatch r.path p) = true ∧
          ∀ r' ∈ pre, (r'.method == m && reMatch r'.path p) = false) ∧
    (∀ (svc : Service) (m p : String),
        svc.resolve m p = Option.none ↔
          ∀ r ∈ svc.routes, (r.method == m && reMatch r.path p) = false) ∧
    (∀ (svc : Service) (m p : String) (pre post : List Route) (r : Route),
        svc.routes = pre ++ r :: post →
        (∀ r' ∈ pre, (r'.method == m && reMatch r'.path p) = false) →
        (r.method == m && reMatch r.path p) = true →
        svc.resolve m p = some r) ∧
    (Service.resolve
        ⟨[⟨"GET", "/a/$", Option.none, [], 200⟩,
          ⟨"GET", "/a/.*", Option.none, [], 200⟩],
          8081, false, 0, false, Option.none, Option.none⟩ "GET" "/a/b" =
      some ⟨"GET", "/a/.*", Option.none, [], 200⟩) := by
  refine ⟨fun svc m p r h => resolveList_eq_some svc.routes m p r h,
    fun svc m p => resolveList_eq_none svc.routes m p,
    fun svc m p pre post r heq hpre hr => ?_, rfl⟩
  show resolveList svc.routes m p = some r
  rw [heq]
  exact resolveList_first pre r post m p hpre hr

/-- C2 witness: the first-match decomposition applied to the concrete
two-route service of the claim, and the not-found sentinel on a request
no route matches. -/
theorem claim2_witness :
    (∃ pre post,
      [⟨"GET", "/a/$", Option.none, [], 200⟩,
        ⟨"GET", "/a/.*", Option.none, [], 200⟩] =
        pre ++ (⟨"GET", "/a/.*", Option.none, [], 200⟩ : Route) :: post ∧
      ((Route.method ⟨"GET", "/a/.*", Option.none, [], 200⟩ == "GET") &&
        reMatch (Route.path ⟨"GET", "/a/.*", Option.none, [], 200⟩) "/a/b")
          = true ∧
      ∀ r' ∈ pre, ((r'.method == "GET") && reMatch r'.path "/a/b") = false) ∧
    Service.resolve
        ⟨[⟨"GET", "/a/$", Option.none, [], 200⟩,
          ⟨"GET", "/a/.*", Option.none, [], 200⟩],
          8081, false, 0, false, Option.none, Option.none⟩ "POST" "/a/b" =
      Option.none := by
  constructor
  · exact claim2_resolve_first_match.1
      ⟨[⟨"GET", "/a/$", Option.none, [], 200⟩,
        ⟨"GET", "/a/.*", Option.none, [], 200⟩],
        8081, false, 0, false, Option.none, Option.none⟩
      "GET" "/a/b" ⟨"GET", "/a/.*", Option.none, [], 200⟩ rfl
  · exact (claim2_resolve_first_match.2.1
      ⟨[⟨"GET", "/a/$", Option.none, [], 200⟩,
        ⟨"GET", "/a/.*", Option.none, [], 200⟩],
        8081, false, 0, false, Option.none, Option.none⟩
      "POST" "/a/b").mpr (by decide)

/-- C3 counterexample: the payload `''` is supplied, yet the constructed
route has no body and neither `Content-type` nor `Content-length` header,
because `Route.__init__` guards the negotiation with the payload's
truthiness (`if data:`), not with its presence. -/
theorem claim3_counterexample :
    rInit envTest (.str "GET") (.str "/") (.str "") .none (.int 200) =
      .ok ⟨"GET", "/", Option.none, [], 200⟩ ∧
    alGet "Content-type"
      (Route.headers ⟨"GET", "/", Option.none, [], 200⟩) = Option.none ∧
    pyTruthy (.str "") = false := ⟨rfl, rfl, rfl⟩

/-- C3 (amended): for every Route constructed with a supplied *truthy*
(non-empty) payload, the headers gain `Content-type` (from negotiation)
and `Content-length` (the exact byte length of the body) before the
caller headers are merged, so a caller header with the same key always
overrides the auto-inserted value, while the stored body bytes are
unaffected. -/
theorem claim3_headers_auto_insert
    (env : Env) (method path payload : PyVal)
    (hs : List (String × PyVal)) (status : PyVal) (r : Route)
    (htr : pyTruthy payload = true)
    (h : rInit env method path payload (.dict hs) status = .ok r) :
    ∃ body ctype,
      parse_response env payload = .ok (body, ctype) ∧
      r.data = some body ∧
      r.headers =
        dictUpdate
          [("Content-type", PyVal.str ctype),
           ("Content-length", PyVal.int (body.length : Int))] hs ∧
      ((hs.map Prod.fst).Nodup →
        ∀ k v, alGet k hs = some v → alGet k r.headers = some v) := by
  rw [rInit_ok_iff] at h
  obtain ⟨m, p, ba, hdrs, n, hm, hp, hn, hh, hst, rfl⟩ := h
  obtain ⟨bd, au⟩ := ba
  cases hpr : parse_response env payload with
  | error e =>
    rw [show negotiate env payload = .error e by
      simp [negotiate, htr, hpr]] at hn
    exact absurd hn (by simp)
  | ok bc =>
    obtain ⟨body, ct⟩ := bc
    have hn2 : Except.ok (ε := PyErr) ((some body : Option (List Nat)),
        [("Content-type", PyVal.str ct),
         ("Content-length", PyVal.int (body.length : Int))]) =
        Except.ok (bd, au) := by
      rw [← hn]
      simp [negotiate, htr, hpr]
    have hpair := (Except.ok.inj hn2).symm
    injection hpair with hbd hau
    subst hbd
    subst hau
    have hdrs_eq : hdrs =
        dictUpdate
          [("Content-type", PyVal.str ct),
           ("Content-length", PyVal.int (body.length : Int))] hs := by
      cases hs with
      | nil => exact (Except.ok.inj hh).symm
      | cons a t => exact (Except.ok.inj hh).symm
    refine ⟨body, ct, rfl, rfl, hdrs_eq, ?_⟩
    intro hnd k v hkv
    show alGet k hdrs = some v
    rw [hdrs_eq]
    exact alGet_dictUpdate_mem _ hs k v hnd hkv

/-- C3 witness: a text payload with a caller-supplied `Content-type`
override, instantiating the amended claim: the auto headers are inserted
first and the caller's value wins while the body stays the negotiated
bytes. -/
theorem claim3_witness :
    ∃ body ctype,
      parse_response envTest (.str "hi") = .ok (body, ctype) ∧
      Route.data ⟨"GET", "/", some [104, 105],
        [("Content-type", PyVal.str "text/html"),
         ("Content-length", PyVal.int 2)], 200⟩ = some body ∧
      Route.headers ⟨"GET", "/", some [104, 105],
        [("Content-type", PyVal.str "text/html"),
         ("Content-length", PyVal.int 2)], 200⟩ =
        dictUpdate
          [("Content-type", PyVal.str ctype),
           ("Content-length", PyVal.int (body.length : Int))]
          [("Content-type", PyVal.str "text/html")] ∧
      (([("Content-type", PyVal.str "text/html")].map Prod.fst).Nodup →
        ∀ k v, alGet k [("Content-type", PyVal.str "text/html")] = some v →
          alGet k (Route.headers ⟨"GET", "/", some [104, 105],
            [("Content-type", PyVal.str "text/html"),
             ("Content-length", PyVal.int 2)], 200⟩) = some v) :=
  claim3_headers_auto_insert envTest (.str "GET") (.str "/") (.str "hi")
    [("Content-type", PyVal.str "text/html")] (.int 200)
    ⟨"GET", "/", some [104, 105],
      [("Content-type", PyVal.str "text/html"),
       ("Content-length", PyVal.int 2)], 200⟩ rfl rfl

/-- C4 counterexample: exhausting all four bind attempts raises the fatal
`OSError` whose message is `'Port is already busy or operation not
permitted'`, not the claimed `'port already in use or operation not
permitted'`. -/
theorem claim4_counterexample :
    createFrom (fun _ => BindOutcome.addrInUse) 3 =
      ⟨.exhausted "Port is already busy or operation not permitted", 4,
        [(1 : ℚ) / 2, 1 / 2, 1 / 2, 1 / 2]⟩ ∧
    "Port is already busy or operation not permitted" ≠
      "port already in use or operation not permitted" :=
  ⟨rfl, by decide⟩

/-- C4 (amended): `Service.start` acquires the socket via
`_create(attempts=3)`: up to 3 retries (4 bind attempts total) with a
fixed 0.5-second backoff, retrying only on an address-in-use failure; any
other bind failure propagates at its first occurrence; exhausting all
attempts raises the fatal error `'Port is already busy or operation not
permitted'`. -/
theorem claim4_bind_retry :
    (∀ out : Nat → BindOutcome,
        (∀ i, i < 4 → out i = .addrInUse) →
        createFrom out 3 =
          ⟨.exhausted "Port is already busy or operation not permitted", 4,
            List.replicate 4 ((1 : ℚ) / 2)⟩) ∧
    (∀ (out : Nat → BindOutcome) (k : Nat), k ≤ 3 →
        (∀ i, i < k → out i = .addrInUse) → out k = .otherErr →
        createFrom out 3 =
          ⟨.propagated k, k + 1, List.replicate k ((1 : ℚ) / 2)⟩) ∧
    (∀ (out : Nat → BindOutcome) (k : Nat), k ≤ 3 →
        (∀ i, i < k → out i = .addrInUse) → out k = .ok →
        createFrom out 3 =
          ⟨.success k, k + 1, List.replicate k ((1 : ℚ) / 2)⟩) ∧
    (∀ out : Nat → BindOutcome, (createFrom out 3).binds ≤ 4) ∧
    (∀ (svc : Service) (out : Nat → BindOutcome),
        svc.routes ≠ [] → (svc.start out).binds = (createFrom out 3).binds ∧
        (svc.start out).sleeps = (createFrom out 3).sleeps) := by
  have hemp : ∀ svc : Service, svc.routes ≠ [] → svc.routes.isEmpty = false := by
    intro svc h
    cases hr : svc.routes with
    | nil => exact absurd hr h
    | cons a t => rfl
  refine ⟨?_, ?_, ?_, ?_, ?_⟩
  · intro out hbusy
    exact createGo_all_busy out 4 0 (fun i hi => by simpa using hbusy i hi)
  · intro out k hk hbusy herr
    have h := (createGo_stops out k 4 0 (Nat.lt_succ_of_le hk)
      (fun i hi => by simpa using hbusy i hi)).2 (by simpa using herr)
    simpa using h
  · intro out k hk hbusy hok
    have h := (createGo_stops out k 4 0 (Nat.lt_succ_of_le hk)
      (fun i hi => by simpa using hbusy i hi)).1 (by simpa using hok)
    simpa using h
  · intro out
    exact createGo_binds_le out 4 0
  · intro svc out hne
    have h1 : svc.start out =
        (match createFrom out 3 with
          | ⟨.success i, b, sl⟩ => ⟨.running i, b, sl⟩
          | ⟨.propagated i, b, sl⟩ => ⟨.bindError i, b, sl⟩
          | ⟨.exhausted m, b, sl⟩ => ⟨.exhausted m, b, sl⟩) := by
      rw [Service.start, hemp svc hne]
      rfl
    rw [h1]
    obtain ⟨res, b, sl⟩ := createFrom out 3
    cases res <;> exact ⟨rfl, rfl⟩

/-- C4 witness: the amended claim evaluated at concrete outcome
sequences: all-busy exhaustion, propagation of a non-address-in-use error
at the third attempt, success at the second attempt, and the
`start`/`_create` agreement for a one-route service. -/
theorem claim4_witness :
    createFrom (fun _ => BindOutcome.addrInUse) 3 =
      ⟨.exhausted "Port is already busy or operation not permitted", 4,
        [(1 : ℚ) / 2, 1 / 2, 1 / 2, 1 / 2]⟩ ∧
    createFrom (fun i => if i < 2 then .addrInUse else .otherErr) 3 =
      ⟨.propagated 2, 3, [(1 : ℚ) / 2, 1 / 2]⟩ ∧
    createFrom (fun i => if i < 1 then .addrInUse else .ok) 3 =
      ⟨.success 1, 2, [(1 : ℚ) / 2]⟩ ∧
    (Service.start ⟨[⟨"GET", "/$", Option.none, [], 200⟩], 8081, false, 0,
        false, Option.none, Option.none⟩ (fun _ => .addrInUse)).binds =
      (createFrom (fun _ => BindOutcome.addrInUse) 3).binds := by
  refine ⟨claim4_bind_retry.1 (fun _ => .addrInUse) (fun i _ => rfl),
    claim4_bind_retry.2.1 (fun i => if i < 2 then .addrInUse else .otherErr)
      2 (by decide) (fun i hi => by simp [hi]) (by decide),
    claim4_bind_retry.2.2.1 (fun i => if i < 1 then .addrInUse else .ok)
      1 (by decide) (fun i hi => by simp [hi]) (by decide),
    (claim4_bind_retry.2.2.2.2
      ⟨[⟨"GET", "/$", Option.none, [], 200⟩], 8081, false, 0,
        false, Option.none, Option.none⟩ (fun _ => .addrInUse)
      (by simp)).1⟩

/-- C5: Route method validation: a text method whose uppercase form is
one of GET, POST, PUT, DELETE is accepted and stored uppercase; any other
text raises a `ValueError`; a non-text method raises a `TypeError`. -/
theorem claim5_method_validation :
    (∀ s : String, pyUpper s ∈ Method.ALLOWED →
        parseMethod (.str s) = .ok (pyUpper s)) ∧
    (∀ (env : Env) (s : String) (path payload headers status : PyVal)
        (r : Route),
        rInit env (.str s) path payload headers status = .ok r →
        pyUpper s ∈ Method.ALLOWED ∧ r.method = pyUpper s) ∧
    (∀ (env : Env) (s : String) (path payload headers status : PyVal),
        pyUpper s ∉ Method.ALLOWED →
        rInit env (.str s) path payload headers status =
          .error (.valueError
            ("Method \x22" ++ s ++ "\x22 is not allowed"))) ∧
    (∀ (env : Env) (m path payload headers status : PyVal),
        (∀ s, m ≠ .str s) →
        rInit env m path payload headers status =
          .error (.typeError "Method name should be str")) := by
  refine ⟨fun s h => by simp [parseMethod, h], ?_, ?_, ?_⟩
  · intro env s path payload headers status r h
    rw [rInit_ok_iff] at h
    obtain ⟨m, p, ba, hdrs, n, hm, hp, hn, hh, hst, rfl⟩ := h
    by_cases hmem : pyUpper s ∈ Method.ALLOWED
    · have : m = pyUpper s := by
        have := hm
        simp [parseMethod, hmem] at this
        exact this.symm
      exact ⟨hmem, this⟩
    · exact absurd hm (by simp [parseMethod, hmem])
  · intro env s path payload headers status hmem
    simp [rInit, parseMethod, hmem]
  · intro env m path payload headers status hm
    cases m with
    | str s => exact absurd rfl (hm s)
    | none => rfl
    | bool b => rfl
    | int n => rfl
    | list xs => rfl
    | tuple xs => rfl
    | dict es => rfl

/-- C5 witness: the validation evaluated at a lowercase valid method, an
unknown method name and a non-text method. -/
theorem claim5_witness :
    parseMethod (.str "get") = .ok (pyUpper "get") ∧
    (pyUpper "get" ∈ Method.ALLOWED ∧
      Route.method ⟨"GET", "/", Option.none, [], 200⟩ = pyUpper "get") ∧
    rInit envTest (.str "PATCH") (.str "/") .none .none (.int 200) =
      .error (.valueError "Method \x22PATCH\x22 is not allowed") ∧
    rInit envTest (.int 5) (.str "/") .none .none (.int 200) =
      .error (.typeError "Method name should be str") := by
  refine ⟨claim5_method_validation.1 "get" (by decide),
    claim5_method_validation.2.1 envTest "get" (.str "/") .none .none
      (.int 200) ⟨"GET", "/", Option.none, [], 200⟩ rfl, ?_, ?_⟩
  · exact claim5_method_validation.2.2.1 envTest "PATCH" (.str "/") .none
      .none (.int 200) (by decide)
  · exact claim5_method_validation.2.2.2 envTest (.int 5) (.str "/") .none
      .none (.int 200) (fun s h => PyVal.noConfusion h)

/-- C6 counterexample: `Route.cast([])` raises a `TypeError`, not the
claimed `ValueError` — the empty list is falsy, so `if route and
isinstance(route, (list, tuple))` sends it down the non-sequence
branch. -/
theorem claim6_counterexample :
    Route.cast envTest (.list []) =
      .error (.typeError "Route should be list or tuple") ∧
    isValueErr (Route.cast envTest (.list [])) = false := ⟨rfl, rfl⟩

/-- C6 (amended): a non-empty list/tuple with fewer than two elements
(i.e. exactly one) makes `Route.cast` fail with a `ValueError`; an empty
list/tuple, like any argument that is not list/tuple shaped, fails with a
`TypeError`; a sequence `(method, path[, payload[, headers[, status]]])`
with at least two elements is forwarded to the primary constructor (whose
`ValueError`s are re-raised with the cast message). -/
theorem claim6_cast_arity :
    (∀ env : Env,
        Route.cast env (.list []) =
          .error (.typeError "Route should be list or tuple") ∧
        Route.cast env (.tuple []) =
          .error (.typeError "Route should be list or tuple")) ∧
    (∀ (env : Env) (x : PyVal),
        Route.cast env (.list [x]) =
          .error (.valueError "Route should contain method and path") ∧
        Route.cast env (.tuple [x]) =
          .error (.valueError "Route should contain method and path")) ∧
    (∀ (env : Env) (v : PyVal), isSeq v = false →
        Route.cast env v =
          .error (.typeError "Route should be list or tuple")) ∧
    (∀ (env : Env) (m p : PyVal) (opts : List PyVal),
        Route.cast env (.list (m :: p :: opts)) =
          castWrap (rInit env m p (opts.getD 0 .none) (opts.getD 1 .none)
            (opts.getD 2 (.int 200))) ∧
        Route.cast env (.tuple (m :: p :: opts)) =
          castWrap (rInit env m p (opts.getD 0 .none) (opts.getD 1 .none)
            (opts.getD 2 (.int 200)))) := by
  refine ⟨fun env => ⟨rfl, rfl⟩, fun env x => ⟨rfl, rfl⟩, ?_,
    fun env m p opts => ⟨rfl, rfl⟩⟩
  intro env v hv
  cases v with
  | list xs => simp [isSeq] at hv
  | tuple xs => simp [isSeq] at hv
  | none => rfl
  | bool b => cases b <;> rfl
  | int n =>
    cases hn : pyTruthy (.int n) with
    | false => simp [Route.cast, hn]
    | true => simp [Route.cast, hn]
  | str s =>
    cases hn : pyTruthy (.str s) with
    | false => simp [Route.cast, hn]
    | true => simp [Route.cast, hn]
  | dict es =>
    cases hn : pyTruthy (.dict es) with
    | false => simp [Route.cast, hn]
    | true => simp [Route.cast, hn]

/-- C6 witness: the arity rules evaluated on a one-element list, a
non-sequence argument and a well-formed pair. -/
theorem claim6_witness :
    Route.cast envTest (.list [.str "GET"]) =
      .error (.valueError "Route should contain method and path") ∧
    Route.cast envTest (.str "GET") =
      .error (.typeError "Route should be list or tuple") ∧
    Route.cast envTest (.list [.str "GET", .str "/$"]) =
      castWrap (rInit envTest (.str "GET") (.str "/$") .none .none
        (.int 200)) :=
  ⟨(claim6_cast_arity.2.1 envTest (.str "GET")).1,
    claim6_cast_arity.2.2.1 envTest (.str "GET") rfl,
    (claim6_cast_arity.2.2.2 envTest (.str "GET") (.str "/$") []).1⟩

/-- C7: starting a Service whose route list is empty fails with the
configuration error `'Routes not defined'` before any socket is opened: no
bind attempt is made and no backoff is slept. -/
theorem claim7_start_no_routes
    (svc : Service) (out : Nat → BindOutcome) (h : svc.routes = []) :
    svc.start out = ⟨.noRoutes "Routes not defined", 0, []⟩ := by
  rw [Service.start, h]
  rfl

/-- C7 witness: the empty-route failure on a concrete Service, even when
every bind attempt would succeed. -/
theorem claim7_witness :
    Service.start ⟨[], 8081, false, 0, false, Option.none, Option.none⟩
      (fun _ => .ok) = ⟨.noRoutes "Routes not defined", 0, []⟩ :=
  claim7_start_no_routes
    ⟨[], 8081, false, 0, false, Option.none, Option.none⟩ (fun _ => .ok) rfl

/-- C8: with `secure` truthy, construction succeeds only when both the
`key` and `crt` arguments name paths that exist (otherwise it raises a
`ValueError`), and a successfully built secure Service records both
resolved paths; with `secure` falsy, nonexistent key/crt paths never make
construction fail. -/
theorem claim8_secure_validation :
    (∀ (env : Env) (routes port trace delay secure : PyVal)
        (key crt : String) (svc : Service),
        Service.init env routes port trace delay secure key crt = .ok svc →
        pyTruthy secure = true →
        env.pathExists key = true ∧ env.pathExists crt = true ∧
          svc.secure = true) ∧
    (∀ (env : Env) (routes port trace delay secure : PyVal)
        (key crt : String),
        pyTruthy secure = true →
        (env.pathExists key = false ∨ env.pathExists crt = false) →
        ∀ svc, Service.init env routes port trace delay secure key crt ≠
          .ok svc) ∧
    (∀ (env : Env) (key crt : String),
        ∃ svc, Service.init env (.list [.str "GET", .str "/$"]) (.int 8081)
            (.bool false) (.int 0) (.bool false) key crt = .ok svc ∧
          svc.secure = false) := by
  have main : ∀ (env : Env) (routes port trace delay secure : PyVal)
      (key crt : String) (svc : Service),
      Service.init env routes port trace delay secure key crt = .ok svc →
      pyTruthy secure = true →
      env.pathExists key = true ∧ env.pathExists crt = true ∧
        svc.secure = true := by
    intro env routes port trace delay secure key crt svc h hsec
    cases hcr : castRoutes env routes with
    | error e => simp [Service.init, hcr] at h
    | ok rts =>
      cases hprt : pyInt port with
      | none => simp [Service.init, hcr, hprt] at h
      | some prt =>
        cases hdly : pyFloat delay with
        | none => simp [Service.init, hcr, hprt, hdly] at h
        | some dly =>
          cases hck : env.pathExists crt with
          | false =>
            have : Service.init env routes port trace delay secure key crt =
                .error (.valueError "crt not exists but ssl is enabled") := by
              simp [Service.init, hcr, hprt, hdly, hck, setSecure, hsec]
            rw [this] at h
            exact absurd h (by simp)
          | true =>
            cases hkk : env.pathExists key with
            | false =>
              have : Service.init env routes port trace delay secure key
                  crt =
                  .error (.valueError "key not exists but ssl is enabled")
                  := by
                simp [Service.init, hcr, hprt, hdly, hck, hkk, setSecure,
                  hsec]
              rw [this] at h
              exact absurd h (by simp)
            | true =>
              refine ⟨rfl, rfl, ?_⟩
              have : Service.init env routes port trace delay secure key
                  crt =
                  .ok ⟨rts, prt, pyTruthy trace, dly, pyTruthy secure,
                    some key, some crt⟩ := by
                simp [Service.init, hcr, hprt, hdly, hck, hkk, setSecure,
                  hsec]
              rw [this] at h
              have hs := Except.ok.inj h
              rw [← hs, hsec]
  refine ⟨main, ?_, ?_⟩
  · intro env routes port trace delay secure key crt hsec hmiss svc h
    obtain ⟨hk, hc, _⟩ := main env routes port trace delay secure key crt
      svc h hsec
    rcases hmiss with hm | hm
    · rw [hk] at hm
      exact Bool.noConfusion hm
    · rw [hc] at hm
      exact Bool.noConfusion hm
  · intro env key crt
    exact ⟨⟨[⟨"GET", "/$", Option.none, [], 200⟩], 8081, false, 0, false,
      (if env.pathExists key then some key else Option.none),
      (if env.pathExists crt then some crt else Option.none)⟩, rfl, rfl⟩

/-- C8 witness: a secure construction with both paths existing, a failing
secure construction with a missing key, and an insecure construction with
both paths missing. -/
theorem claim8_witness :
    (envSec.pathExists "k.pem" = true ∧ envSec.pathExists "c.pem" = true ∧
      Service.secure ⟨[⟨"GET", "/$", Option.none, [], 200⟩], 8081, false,
        0, true, some "k.pem", some "c.pem"⟩ = true) ∧
    Service.init envTest (.list [.str "GET", .str "/$"]) (.int 8081)
        (.bool false) (.int 0) (.bool true) "k.pem" "c.pem" ≠
      .ok ⟨[⟨"GET", "/$", Option.none, [], 200⟩], 8081, false, 0, true,
        some "k.pem", some "c.pem"⟩ := by
  constructor
  · exact claim8_secure_validation.1 envSec
      (.list [.str "GET", .str "/$"]) (.int 8081) (.bool false) (.int 0)
      (.bool true) "k.pem" "c.pem"
      ⟨[⟨"GET", "/$", Option.none, [], 200⟩], 8081, false, 0, true,
        some "k.pem", some "c.pem"⟩ rfl rfl
  · exact claim8_secure_validation.2.1 envTest
      (.list [.str "GET", .str "/$"]) (.int 8081) (.bool false) (.int 0)
      (.bool true) "k.pem" "c.pem" rfl (Or.inl rfl)
      ⟨[⟨"GET", "/$", Option.none, [], 200⟩], 8081, false, 0, true,
        some "k.pem", some "c.pem"⟩

/-- C9: every route appended by the `put` builder carries no body
(`data` is `None` — the builder passes `None` as the payload), so its
headers are exactly the caller-supplied ones merged into an empty dict:
no `Content-type` or `Content-length` is ever auto-inserted. -/
theorem claim9_put_no_payload
    (env : Env) (svc : Service) (path headers status : PyVal)
    (svc' : Service)
    (h : Service.put env svc path headers status = .ok svc') :
    ∃ r, svc'.routes = svc.routes ++ [r] ∧ r.method = "PUT" ∧
      r.data = Option.none ∧
      (pyTruthy headers = false → r.headers = []) ∧
      (∀ hs, headers = .dict hs → r.headers = dictUpdate [] hs) := by
  cases hr : rInit env (.str Method.PUT) path .none headers status with
  | error e => simp [Service.put, hr] at h
  | ok r =>
    have hsvc : svc' = { svc with routes := svc.routes ++ [r] } := by
      have := h
      simp [Service.put, hr] at this
      exact this.symm
    subst hsvc
    rw [rInit_ok_iff] at hr
    obtain ⟨m, p, ba, hdrs, n, hm, hp, hn, hh, hst, rfl⟩ := hr
    obtain ⟨bd, au⟩ := ba
    have hm2 : m = "PUT" := (Except.ok.inj hm).symm
    have hn2 : bd = Option.none ∧ au = [] := by
      have := Except.ok.inj hn
      injection this.symm with h1 h2
      exact ⟨h1, h2⟩
    obtain ⟨hbd, hau⟩ := hn2
    subst hbd
    subst hau
    refine ⟨⟨m, p, Option.none, hdrs, n⟩, rfl, hm2, rfl, ?_, ?_⟩
    · intro hft
      have : Except.ok (ε := PyErr)
          ([] : List (String × PyVal)) = .ok hdrs := by
        rw [← hh]
        simp [mergeHeaders, hft]
      exact (Except.ok.inj this).symm
    · intro hs hhs
      subst hhs
      cases hs with
      | nil => exact (Except.ok.inj hh).symm
      | cons a t => exact (Except.ok.inj hh).symm

/-- C9 witness: the `put` builder evaluated on an empty service with a
caller header; the appended route has no body and only the caller
header. -/
theorem claim9_witness :
    ∃ r, Service.routes ⟨[⟨"PUT", "/p", Option.none,
        [("X-TOKEN", PyVal.str "1")], 201⟩], 8081, false, 0, false,
        Option.none, Option.none⟩ =
      Service.routes ⟨[], 8081, false, 0, false, Option.none,
        Option.none⟩ ++ [r] ∧
      r.method = "PUT" ∧ r.data = Option.none ∧
      (pyTruthy (.dict [("X-TOKEN", PyVal.str "1")]) = false →
        r.headers = []) ∧
      (∀ hs, PyVal.dict [("X-TOKEN", PyVal.str "1")] = .dict hs →
        r.headers = dictUpdate [] hs) :=
  claim9_put_no_payload envTest
    ⟨[], 8081, false, 0, false, Option.none, Option.none⟩
    (.str "/p") (.dict [("X-TOKEN", PyVal.str "1")]) (.int 201)
    ⟨[⟨"PUT", "/p", Option.none, [("X-TOKEN", PyVal.str "1")], 201⟩],
      8081, false, 0, false, Option.none, Option.none⟩ rfl

/-- C10: `Route.cast` on a list/tuple with more than five elements
ignores everything beyond the fifth: the result coincides with casting
only the first five elements, and when those five form a valid
combination it succeeds with the very same Route. -/
theorem claim10_cast_extra_ignored :
    (∀ (env : Env) (m p d h st : PyVal) (extra : List PyVal),
        Route.cast env (.list (m :: p :: d :: h :: st :: extra)) =
          Route.cast env (.list [m, p, d, h, st]) ∧
        Route.cast env (.tuple (m :: p :: d :: h :: st :: extra)) =
          Route.cast env (.tuple [m, p, d, h, st])) ∧
    (∀ (env : Env) (m p d h st : PyVal) (extra : List PyVal) (r : Route),
        rInit env m p d h st = .ok r →
        Route.cast env (.list (m :: p :: d :: h :: st :: extra)) =
          .ok r) := by
  refine ⟨fun env m p d h st extra => ⟨rfl, rfl⟩, ?_⟩
  intro env m p d h st extra r hr
  show castWrap (rInit env m p d h st) = .ok r
  rw [hr]
  rfl

/-- C10 witness: a seven-element route literal produces the same Route as
its first five elements alone. -/
theorem claim10_witness :
    Route.cast envTest (.list [.str "GET", .str "/", .str "hi", .none,
        .int 200, .str "extra1", .int 42]) =
      .ok ⟨"GET", "/", some [104, 105],
        [("Content-type", PyVal.str "text/plain"),
         ("Content-length", PyVal.int 2)], 200⟩ :=
  claim10_cast_extra_ignored.2 envTest (.str "GET") (.str "/") (.str "hi")
    .none (.int 200) [.str "extra1", .int 42]
    ⟨"GET", "/", some [104, 105],
      [("Content-type", PyVal.str "text/plain"),
       ("Content-length", PyVal.int 2)], 200⟩ rfl
